import Mathlib

/-!
Verification development for the webhook delivery engine of the SMS backend.

The JavaScript source is shallowly embedded: JS strings are modelled as their
byte sequences (`List Nat`, one entry per byte; all strings involved are
ASCII, where byte = code point), machine/JS numbers as `Nat`/`Int` (exact in
the ranges exercised by the engine), `Date` values as `Nat` milliseconds, and
fallible operations as `Except`/`Option`.  Node's `crypto` HMAC-SHA256 is
embedded as an executable pure implementation (FIPS 180-4 / FIPS 198-1) so
that signatures can be computed inside proofs.
-/

namespace SmsWebhook

/-- Byte strings: each entry is a byte value `< 256`. -/
abbrev Bytes := List Nat

/-- Byte sequence of an ASCII Lean string (for ASCII text, the UTF-8 byte
equals the code point). -/
def bytesOfAscii (s : String) : Bytes :=
  s.data.map Char.toNat

/-! ## SHA-256 over `Nat` (FIPS 180-4) -/

/-- Truncate to a 32-bit word. -/
def w32 (x : Nat) : Nat := x % 4294967296

/-- Right-rotate a 32-bit word by `n`. -/
def rotr32 (n x : Nat) : Nat :=
  w32 (Nat.lor (Nat.shiftRight x n) (Nat.shiftLeft x (32 - n)))

/-- SHA-256 `Ch` function. -/
def sha2Ch (x y z : Nat) : Nat :=
  Nat.xor (Nat.land x y) (Nat.land (4294967295 - w32 x) z)

/-- SHA-256 `Maj` function. -/
def sha2Maj (x y z : Nat) : Nat :=
  Nat.xor (Nat.xor (Nat.land x y) (Nat.land x z)) (Nat.land y z)

/-- Big sigma 0. -/
def bigSig0 (x : Nat) : Nat := Nat.xor (rotr32 2 x) (Nat.xor (rotr32 13 x) (rotr32 22 x))

/-- Big sigma 1. -/
def bigSig1 (x : Nat) : Nat := Nat.xor (rotr32 6 x) (Nat.xor (rotr32 11 x) (rotr32 25 x))

/-- Small sigma 0. -/
def smallSig0 (x : Nat) : Nat := Nat.xor (rotr32 7 x) (Nat.xor (rotr32 18 x) (Nat.shiftRight x 3))

/-- Small sigma 1. -/
def smallSig1 (x : Nat) : Nat := Nat.xor (rotr32 17 x) (Nat.xor (rotr32 19 x) (Nat.shiftRight x 10))

/-- The 64 SHA-256 round constants (FIPS 180-4: the first 32 bits of the
fractional parts of the cube roots of the first 64 primes), in decimal. -/
def sha2K : List Nat :=
  [1116352408, 1899447441, 3049323471, 3921009573, 961987163,
   1508970993, 2453635748, 2870763221, 3624381080, 310598401,
   607225278, 1426881987, 1925078388, 2162078206, 2614888103,
   3248222580, 3835390401, 4022224774, 264347078, 604807628,
   770255983, 1249150122, 1555081692, 1996064986, 2554220882,
   2821834349, 2952996808, 3210313671, 3336571891, 3584528711,
   113926993, 338241895, 666307205, 773529912, 1294757372,
   1396182291, 1695183700, 1986661051, 2177026350, 2456956037,
   2730485921, 2820302411, 3259730800, 3345764771, 3516065817,
   3600352804, 4094571909, 275423344, 430227734, 506948616,
   659060556, 883997877, 958139571, 1322822218, 1537002063,
   1747873779, 1955562222, 2024104815, 2227730452, 2361852424,
   2428436474, 2756734187, 3204031479, 3329325298]

/-- The eight-word SHA-256 working state. -/
structure Sha2State where
  a : Nat
  b : Nat
  c : Nat
  d : Nat
  e : Nat
  f : Nat
  g : Nat
  h : Nat
deriving Repr, DecidableEq

/-- SHA-256 initial hash value (FIPS 180-4: the first 32 bits of the
fractional parts of the square roots of the first 8 primes), in decimal. -/
def sha2IV : Sha2State :=
  ⟨1779033703, 3144134277, 1013904242, 2773480762, 1359893119, 2600822924, 528734635, 1541459225⟩

/-- One SHA-256 round with round constant `k` and schedule word `w`. -/
def sha2Round (s : Sha2State) (k w : Nat) : Sha2State :=
  let t1 := w32 (s.h + bigSig1 s.e + sha2Ch s.e s.f s.g + k + w)
  let t2 := w32 (bigSig0 s.a + sha2Maj s.a s.b s.c)
  ⟨w32 (t1 + t2), s.a, s.b, s.c, w32 (s.d + t1), s.e, s.f, s.g⟩

/-- Big-endian assembly of 4-byte groups into 32-bit words (fuel-driven so it
reduces structurally). -/
def bytesToWordsAux : Nat → Bytes → List Nat
  | 0, _ => []
  | _ + 1, b0 :: b1 :: b2 :: b3 :: rest =>
      (b0 * 16777216 + b1 * 65536 + b2 * 256 + b3) :: bytesToWordsAux rest.length rest
  | _ + 1, _ => []

/-- Big-endian 32-bit words of a byte string whose length is a multiple of 4. -/
def bytesToWords (l : Bytes) : List Nat := bytesToWordsAux l.length l

/-- Extend the reversed message schedule by `n` further words (head of the
accumulator is the most recent word). -/
def schedExtRev : Nat → List Nat → List Nat
  | 0, acc => acc
  | n + 1, acc =>
      schedExtRev n
        (w32 (smallSig1 (acc.getD 1 0) + acc.getD 6 0 +
              smallSig0 (acc.getD 14 0) + acc.getD 15 0) :: acc)

/-- The 64-entry message schedule of one 16-word block. -/
def sha2Schedule (block : List Nat) : List Nat :=
  (schedExtRev 48 block.reverse).reverse

/-- Compress one 64-byte block into the running state. -/
def sha2Compress (s : Sha2State) (block : Bytes) : Sha2State :=
  let ws := sha2Schedule (bytesToWords block)
  let t := (List.zip sha2K ws).foldl (fun st kw => sha2Round st kw.1 kw.2) s
  ⟨w32 (s.a + t.a), w32 (s.b + t.b), w32 (s.c + t.c), w32 (s.d + t.d),
   w32 (s.e + t.e), w32 (s.f + t.f), w32 (s.g + t.g), w32 (s.h + t.h)⟩

/-- Big-endian 8-byte rendering of the bit length. -/
def lenBytes64 (n : Nat) : Bytes :=
  [Nat.shiftRight n 56 % 256, Nat.shiftRight n 48 % 256, Nat.shiftRight n 40 % 256,
   Nat.shiftRight n 32 % 256, Nat.shiftRight n 24 % 256, Nat.shiftRight n 16 % 256,
   Nat.shiftRight n 8 % 256, n % 256]

/-- SHA-256 padding: `0x80`, zeros to 56 mod 64, then the 64-bit bit length. -/
def sha2Pad (m : Bytes) : Bytes :=
  m ++ 0x80 :: List.replicate ((56 + 64 - (m.length + 1) % 64) % 64) 0
    ++ lenBytes64 (8 * m.length)

/-- Split into 64-byte blocks (fuel-driven so it reduces structurally). -/
def chunk64Aux : Nat → Bytes → List Bytes
  | 0, _ => []
  | _ + 1, [] => []
  | fuel + 1, l => l.take 64 :: chunk64Aux fuel (l.drop 64)

/-- The 64-byte blocks of a byte string. -/
def chunk64 (l : Bytes) : List Bytes := chunk64Aux l.length l

/-- Big-endian bytes of the final eight-word state: exactly 32 bytes. -/
def sha2StateBytes (s : Sha2State) : Bytes :=
  [Nat.shiftRight s.a 24 % 256, Nat.shiftRight s.a 16 % 256, Nat.shiftRight s.a 8 % 256, s.a % 256,
   Nat.shiftRight s.b 24 % 256, Nat.shiftRight s.b 16 % 256, Nat.shiftRight s.b 8 % 256, s.b % 256,
   Nat.shiftRight s.c 24 % 256, Nat.shiftRight s.c 16 % 256, Nat.shiftRight s.c 8 % 256, s.c % 256,
   Nat.shiftRight s.d 24 % 256, Nat.shiftRight s.d 16 % 256, Nat.shiftRight s.d 8 % 256, s.d % 256,
   Nat.shiftRight s.e 24 % 256, Nat.shiftRight s.e 16 % 256, Nat.shiftRight s.e 8 % 256, s.e % 256,
   Nat.shiftRight s.f 24 % 256, Nat.shiftRight s.f 16 % 256, Nat.shiftRight s.f 8 % 256, s.f % 256,
   Nat.shiftRight s.g 24 % 256, Nat.shiftRight s.g 16 % 256, Nat.shiftRight s.g 8 % 256, s.g % 256,
   Nat.shiftRight s.h 24 % 256, Nat.shiftRight s.h 16 % 256, Nat.shiftRight s.h 8 % 256, s.h % 256]

/-- The SHA-256 digest (32 bytes) of a byte string. -/
def sha256 (m : Bytes) : Bytes :=
  sha2StateBytes ((chunk64 (sha2Pad m)).foldl sha2Compress sha2IV)

/-- A SHA-256 digest always has 32 bytes. -/
theorem sha256_length (m : Bytes) : (sha256 m).length = 32 := rfl

/-! ## HMAC-SHA256 and lowercase hex (Node `crypto`) -/

/-- Lowercase hex character of a value `< 16`, as its ASCII byte. -/
def hexDigit (d : Nat) : Nat := if d < 10 then 48 + d else 87 + d

/-- Lowercase hex rendering of a byte string, as ASCII bytes. -/
def hexOfBytes (l : Bytes) : Bytes :=
  l.flatMap (fun b => [hexDigit (b / 16), hexDigit (b % 16)])

/-- Hex doubles the length. -/
theorem hexOfBytes_length (l : Bytes) : (hexOfBytes l).length = 2 * l.length := by
  induction l with
  | nil => rfl
  | cons b t ih =>
      simp [hexOfBytes] at ih ⊢
      omega

/-- HMAC-SHA256 (FIPS 198-1): block size 64, digest reapplied to long keys. -/
def hmacSha256 (key msg : Bytes) : Bytes :=
  let k0 := if 64 < key.length then sha256 key else key
  let kp := k0 ++ List.replicate (64 - k0.length) 0
  sha256 ((kp.map (Nat.xor 0x5c)) ++ sha256 ((kp.map (Nat.xor 0x36)) ++ msg))

/-- Node's `crypto.createHmac('sha256', secret).update(payload).digest('hex')`:
the lowercase-hex HMAC-SHA256, as its 64 ASCII bytes. -/
def generateSignature (payload secret : Bytes) : Bytes :=
  hexOfBytes (hmacSha256 secret payload)

/-- Every generated signature is 64 hex characters. -/
theorem generateSignature_length (payload secret : Bytes) :
    (generateSignature payload secret).length = 64 := by
  simp [generateSignature, hexOfBytes_length, sha256_length, hmacSha256]

/-! ## Data model (src `model/Webhook` and `model/WebhookEvent` schemas)

Timestamps are `Nat` milliseconds; Mongo ids are `Nat`; sparse fields are
`Option`.  `stats.lastCallStatus` is `Int` because the dispatcher stores `-1`
for failures. -/

/-- The embedded `stats` subdocument of a webhook (schema defaults: all three
counters 0, the rest absent). -/
structure WebhookStats where
  totalCalls : Nat
  successfulCalls : Nat
  failedCalls : Nat
  lastCall : Option Nat
  lastCallStatus : Option Int
  averageResponseTime : Option Nat
deriving Repr, DecidableEq

/-- Schema defaults of the `stats` subdocument. -/
def initStats : WebhookStats :=
  { totalCalls := 0
    successfulCalls := 0
    failedCalls := 0
    lastCall := none
    lastCallStatus := none
    averageResponseTime := none }

/-- A webhook subscription document. -/
structure Webhook where
  id : Nat
  username : String
  url : String
  name : String
  description : Option String
  events : List String
  isActive : Bool
  secret : Bytes
  retryEnabled : Bool
  retryCount : Nat
  retryBackoffMs : Nat
  stats : WebhookStats
  notifyOnFailure : Bool
  maxPayloadSize : Nat
  created_at : Nat
  updated_at : Nat
  lastUpdatedBy : Option String
deriving Repr, DecidableEq

/-- Status enum of a webhook event (`pending/sent/failed/success`). -/
inductive EventStatus
  | pending
  | sent
  | failed
  | success
deriving Repr, DecidableEq

/-- A webhook event (delivery-attempt) document.  `payload` is the JSON
serialization of the stored payload object, as bytes. -/
structure WebhookEvent where
  id : Nat
  webhookId : Nat
  logId : Option Nat
  eventType : String
  payload : Bytes
  status : EventStatus
  httpStatusCode : Option Nat
  attempts : Nat
  maxAttempts : Nat
  lastAttemptTime : Option Nat
  lastAttemptError : Option String
  nextRetryTime : Option Nat
  requestDurationMs : Option Nat
  sentAt : Option Nat
  createdAt : Nat
deriving Repr, DecidableEq

/-! ## Mongoose schema validators of `WebhookSchema`

These run on every `save()` of a webhook document — on creation and on every
update — per the schema declaration.  Mongoose semantics embedded: `required`
rejects `undefined`/`null` and the empty string but accepts an empty array;
`enum` on an array checks every element; `min`/`max` bound numbers. -/

/-- The five valid event types of the schema `enum`. -/
def validEvent (e : String) : Bool :=
  e == "sms.sent" || e == "sms.delivered" || e == "sms.failed" ||
  e == "sms.bounced" || e == "sms.read"

/-- JS `String.prototype.startsWith`, on the character lists (kept
kernel-reducible). -/
def strStartsWith (s pre : String) : Bool := pre.data.isPrefixOf s.data

/-- The schema's URL validator, regex `^https?://.+`. -/
def urlRegexTest (u : String) : Bool :=
  (strStartsWith u "http://" && 7 < u.length)
    || (strStartsWith u "https://" && 8 < u.length)

/-- The Mongoose validators of `WebhookSchema` run on `save()`. -/
def webhookSchemaValid (w : Webhook) : Bool :=
  w.username != "" && urlRegexTest w.url && w.name != "" &&
  w.events.all validEvent && w.secret != ([] : Bytes) &&
  1 ≤ w.retryCount && w.retryCount ≤ 10 &&
  1000 ≤ w.retryBackoffMs && w.retryBackoffMs ≤ 3600000 &&
  10240 ≤ w.maxPayloadSize && w.maxPayloadSize ≤ 10485760

/-! ## Dispatcher: `WebhookService.sendWebhookEvent`

One delivery attempt.  The HTTP exchange is a parameter (`HttpOutcome`:
the final response status, or a transport error); axios with its default
`validateStatus` resolves exactly for statuses in `[200,300)` and rejects
(throws) otherwise, which routes every non-2xx response and every transport
error into the single `catch` block of the source. -/

/-- Outcome of the outbound HTTP POST as seen by axios. -/
inductive HttpOutcome
  | reply (status : Nat) (durationMs : Nat)
  | transport (errMsg : String) (durationMs : Nat)
deriving Repr, DecidableEq

/-- Axios default `validateStatus`: resolve only statuses in `[200,300)`. -/
def axiosResolves (status : Nat) : Bool := 200 ≤ status && status < 300

/-- Message of the error axios throws for a rejected outcome. -/
def axiosErrMsg : HttpOutcome → String
  | .reply status _ => s!"Request failed with status code {status}"
  | .transport m _ => m

/-- JSON bytes of `JSON.stringify(\x7b event, timestamp, data \x7d)` as built in
`sendWebhookEvent` (event types and ISO timestamps need no JSON escaping). -/
def envelopeJson (eventType tsIso : String) (payloadJson : Bytes) : Bytes :=
  bytesOfAscii "\x7b\"event\":\"" ++ bytesOfAscii eventType ++
  bytesOfAscii "\",\"timestamp\":\"" ++ bytesOfAscii tsIso ++
  bytesOfAscii "\",\"data\":" ++ payloadJson ++ bytesOfAscii "\x7d"

/-- The string that `sendWebhookEvent` signs: the envelope around the stored
payload, with the send-time timestamp. -/
def signedPayload (ev : WebhookEvent) (tsIso : String) : Bytes :=
  envelopeJson ev.eventType tsIso ev.payload

/-- The outbound POST: axios serializes `webhookEvent.payload` as the body;
the headers carry the signature, event type and event id. -/
structure OutboundRequest where
  url : String
  body : Bytes
  signatureHeader : Bytes
  eventHeader : String
  deliveryHeader : Nat
deriving Repr, DecidableEq

/-- Stats update of the success branch
(`$inc totalCalls,successfulCalls; set lastCall,lastCallStatus,averageResponseTime`). -/
def statsOnSuccess (s : WebhookStats) (now status dur : Nat) : WebhookStats :=
  { s with
    totalCalls := s.totalCalls + 1
    successfulCalls := s.successfulCalls + 1
    lastCall := some now
    lastCallStatus := some (Int.ofNat status)
    averageResponseTime := some dur }

/-- Stats update of the failure branch
(`$inc totalCalls,failedCalls; set lastCall, lastCallStatus := -1`). -/
def statsOnFailure (s : WebhookStats) (now : Nat) : WebhookStats :=
  { s with
    totalCalls := s.totalCalls + 1
    failedCalls := s.failedCalls + 1
    lastCall := some now
    lastCallStatus := some (-1) }

/-- Catch-block of `sendWebhookEvent`: bump `attempts`, record the error, then
either schedule a retry (`pending`, `nextRetryTime = now + retryBackoffMs *
2^(attempts-1)` with the already-bumped `attempts`) or mark `failed`; always
apply the failure stats update. -/
def sendFailureUpdate (w : Webhook) (ev : WebhookEvent) (errMsg : String) (now : Nat) :
    WebhookEvent × Webhook :=
  let attempts' := ev.attempts + 1
  let ev1 := { ev with
    attempts := attempts'
    lastAttemptTime := some now
    lastAttemptError := some errMsg }
  let ev2 :=
    if attempts' < ev.maxAttempts then
      { ev1 with
        nextRetryTime := some (now + w.retryBackoffMs * 2 ^ (attempts' - 1))
        status := .pending }
    else
      { ev1 with status := .failed }
  (ev2, { w with stats := statsOnFailure w.stats now })

/-- One full delivery attempt: sign the envelope, POST the stored payload,
then update the event row and the subscription stats from the outcome.
Returns the request actually issued together with the updated documents. -/
def sendWebhookEvent (w : Webhook) (ev : WebhookEvent) (tsIso : String)
    (outcome : HttpOutcome) (now : Nat) : OutboundRequest × WebhookEvent × Webhook :=
  let signature := generateSignature (signedPayload ev tsIso) w.secret
  let req : OutboundRequest :=
    { url := w.url
      body := ev.payload
      signatureHeader := signature
      eventHeader := ev.eventType
      deliveryHeader := ev.id }
  match outcome with
  | .reply status dur =>
      if axiosResolves status then
        let ev' := { ev with
          status := .success
          sentAt := some now
          httpStatusCode := some status
          requestDurationMs := some dur }
        (req, ev', { w with stats := statsOnSuccess w.stats now status dur })
      else
        let (ev', w') := sendFailureUpdate w ev (axiosErrMsg (.reply status dur)) now
        (req, ev', w')
  | .transport m dur =>
      let (ev', w') := sendFailureUpdate w ev (axiosErrMsg (.transport m dur)) now
      (req, ev', w')

/-- A chain of delivery attempts for one event (the immediate send followed by
retry sweeps), threading the event row and the webhook stats. -/
def runDelivery (w : Webhook) (ev : WebhookEvent) :
    List (String × HttpOutcome × Nat) → WebhookEvent × Webhook
  | [] => (ev, w)
  | (tsIso, oc, now) :: rest =>
      let r := sendWebhookEvent w ev tsIso oc now
      runDelivery r.2.2 r.2.1 rest

/-! ## Event router: `triggerEvent` / `queueWebhookEvent`

`triggerEvent` looks up the caller's active webhooks subscribed to the event
type and creates one `pending` event row per match (awaited inside the loop,
so the rows exist before the call returns; actual delivery is deferred with
`setImmediate`).  Both functions wrap their whole body in `try/catch` and
only `console.error` on failure, so neither ever throws to the caller.
Store writes are fallible in the embedding: `findOk` and the per-row
`saveOks` oracle say which database operations succeed. -/

/-- Event data handed to `triggerEvent` (`logId` plus the JSON bytes of the
payload object). -/
structure EventData where
  logId : Option Nat
  json : Bytes
deriving Repr, DecidableEq

/-- The subscription filter of `triggerEvent`
(`username, isActive: true, events: eventType`). -/
def matchesTrigger (username eventType : String) (w : Webhook) : Bool :=
  w.username == username && w.isActive && w.events.contains eventType

/-- The row built by `queueWebhookEvent`: `status := pending` explicitly,
`maxAttempts` copied from the webhook, `attempts` 0 by schema default. -/
def mkWebhookEvent (w : Webhook) (eventType : String) (d : EventData)
    (evId now : Nat) : WebhookEvent :=
  { id := evId
    webhookId := w.id
    logId := d.logId
    eventType := eventType
    payload := d.json
    status := .pending
    httpStatusCode := none
    attempts := 0
    maxAttempts := w.retryCount
    lastAttemptTime := none
    lastAttemptError := none
    nextRetryTime := none
    requestDurationMs := none
    sentAt := none
    createdAt := now }

/-- The `queueWebhookEvent` body: persist the new row; a failed save is caught
(`console.error`) and nothing is persisted. -/
def queueWebhookEvent (saveOk : Bool) (w : Webhook) (eventType : String)
    (d : EventData) (evId now : Nat) : Option WebhookEvent :=
  if saveOk then some (mkWebhookEvent w eventType d evId now) else none

/-- The `for` loop of `triggerEvent` over the matching webhooks, awaiting one
`queueWebhookEvent` per match; row ids are assigned in loop order. -/
def triggerLoop (saveOks : Nat → Bool) (eventType : String) (d : EventData)
    (now : Nat) : Nat → List Webhook → List WebhookEvent
  | _, [] => []
  | i, w :: rest =>
      match queueWebhookEvent (saveOks i) w eventType d i now with
      | some e => e :: triggerLoop saveOks eventType d now (i + 1) rest
      | none => triggerLoop saveOks eventType d now (i + 1) rest

/-- `WebhookService.triggerEvent`: the rows persisted by one emission.  The
result is the list of rows that exist when the call returns; a failed lookup
is swallowed by the outer `catch`, so the call never propagates an error. -/
def triggerEvent (findOk : Bool) (saveOks : Nat → Bool) (store : List Webhook)
    (username eventType : String) (d : EventData) (now : Nat) :
    Except String (List WebhookEvent) :=
  if findOk then
    .ok (triggerLoop saveOks eventType d now 0
          (store.filter (matchesTrigger username eventType)))
  else
    .ok []

/-! ## Admin operations (service `WebhookService` + routes of `webhooks.js`)

Every route resolves the caller's JWT to a `username`; the service compares
it against the stored owner.  Error strings of the source are collapsed into
a structured error: `notFound` carries only the requested id (the source
message interpolates nothing else), `unauthorized` is a constant.  The route
layer maps messages containing `not found` to HTTP 404 and everything else
to 403. -/

/-- Structured admin error: all the information the error path can carry. -/
inductive AdminError
  | notFound (webhookId : Nat)
  | unauthorized
  | validationFailed
deriving Repr, DecidableEq

/-- HTTP status the route layer assigns to a service error
(`error.message.includes('not found') ? 404 : 403`). -/
def adminErrorHttpStatus : AdminError → Nat
  | .notFound _ => 404
  | .unauthorized => 403
  | .validationFailed => 403

/-- `Webhook.findById` over the store. -/
def findWebhook (store : List Webhook) (webhookId : Nat) : Option Webhook :=
  store.find? (fun w => w.id == webhookId)

/-- `WebhookService.getWebhookById`: lookup, then owner check. -/
def getWebhookById (store : List Webhook) (webhookId : Nat) (username : String) :
    Except AdminError Webhook :=
  match findWebhook store webhookId with
  | none => .error (.notFound webhookId)
  | some w => if w.username == username then .ok w else .error .unauthorized

/-- A PUT body: `some` marks a key present in `updates`.  The keys outside the
service's allow-list (`secret`, `stats`, `retryEnabled`) can be present but
are never applied. -/
structure WebhookPatch where
  url : Option String
  name : Option String
  description : Option String
  events : Option (List String)
  isActive : Option Bool
  retryCount : Option Nat
  retryBackoffMs : Option Nat
  notifyOnFailure : Option Bool
  secret : Option Bytes
  stats : Option WebhookStats
  retryEnabled : Option Bool
deriving Repr, DecidableEq

/-- The `allowedFields.forEach` loop of `updateWebhook`: copy each present
allow-listed key onto the document. -/
def applyAllowedFields (w : Webhook) (p : WebhookPatch) : Webhook :=
  { w with
    url := p.url.getD w.url
    name := p.name.getD w.name
    description := match p.description with | some d => some d | none => w.description
    events := p.events.getD w.events
    isActive := p.isActive.getD w.isActive
    retryCount := p.retryCount.getD w.retryCount
    retryBackoffMs := p.retryBackoffMs.getD w.retryBackoffMs
    notifyOnFailure := p.notifyOnFailure.getD w.notifyOnFailure }

/-- The document `updateWebhook` hands to `save()`: allow-listed patch keys
applied, `updated_at` bumped, `lastUpdatedBy` recorded. -/
def applyUpdateDoc (w : Webhook) (p : WebhookPatch) (username : String)
    (now : Nat) : Webhook :=
  { applyAllowedFields w p with
    updated_at := now
    lastUpdatedBy := some username }

/-- `WebhookService.updateWebhook`: lookup, owner check, apply allow-listed
fields, bump `updated_at`, record `lastUpdatedBy`, then `save()` — which
reruns the schema validators on the patched document and throws (a wrapped
error, HTTP 403 through the route's message test) when they fail, persisting
nothing. -/
def updateWebhook (store : List Webhook) (webhookId : Nat) (username : String)
    (p : WebhookPatch) (now : Nat) : Except AdminError Webhook :=
  match findWebhook store webhookId with
  | none => .error (.notFound webhookId)
  | some w =>
      if w.username == username then
        let w' := applyUpdateDoc w p username now
        if webhookSchemaValid w' then .ok w' else .error .validationFailed
      else .error .unauthorized

/-- `WebhookService.deleteWebhook`: lookup, owner check, hard delete. -/
def deleteWebhook (store : List Webhook) (webhookId : Nat) (username : String) :
    Except AdminError (List Webhook) :=
  match findWebhook store webhookId with
  | none => .error (.notFound webhookId)
  | some w =>
      if w.username == username then
        .ok (store.filter (fun x => x.id != webhookId))
      else .error .unauthorized

/-- `crypto.randomBytes(16).toString('hex')`: the hex rendering of 16 random
bytes drawn from the cryptographic RNG (the randomness is a parameter). -/
def generateSecret (rngBytes : Bytes) : Bytes := hexOfBytes rngBytes

/-- `WebhookService.rotateSecret`: lookup, owner check, replace the secret
with a fresh one, bump `updated_at`. -/
def rotateSecret (store : List Webhook) (webhookId : Nat) (username : String)
    (rngBytes : Bytes) (now : Nat) : Except AdminError Webhook :=
  match findWebhook store webhookId with
  | none => .error (.notFound webhookId)
  | some w =>
      if w.username == username then
        .ok { w with secret := generateSecret rngBytes, updated_at := now }
      else .error .unauthorized

/-- Result of a synchronous test probe. -/
structure TestResult where
  success : Bool
  httpStatusCode : Option Nat
deriving Repr, DecidableEq

/-- `WebhookService.sendTestWebhook`: authorization through `getWebhookById`,
then a synchronous POST of the fixed test payload (no outbox row). -/
def sendTestWebhook (store : List Webhook) (webhookId : Nat) (username : String)
    (outcome : HttpOutcome) : Except AdminError TestResult :=
  match getWebhookById store webhookId username with
  | .error e => .error e
  | .ok _ =>
      match outcome with
      | .reply status _ =>
          if axiosResolves status then .ok { success := true, httpStatusCode := some status }
          else .ok { success := false, httpStatusCode := some status }
      | .transport _ _ => .ok { success := false, httpStatusCode := none }

/-- The `GET /webhooks/:id/events` route: ownership is verified by calling
`getWebhookById` first; only then is the event list read (pagination and
secondary filters of the read model elided). -/
def getWebhookEventsRoute (store : List Webhook) (rows : List WebhookEvent)
    (webhookId : Nat) (username : String) : Except AdminError (List WebhookEvent) :=
  match getWebhookById store webhookId username with
  | .error e => .error e
  | .ok _ => .ok (rows.filter (fun e => e.webhookId == webhookId))

/-- The aggregated statistics view returned by `getWebhookStats`. -/
structure StatsView where
  name : String
  url : String
  isActive : Bool
  stats : WebhookStats
  successCount : Nat
  failedCount : Nat
  pendingCount : Nat
deriving Repr, DecidableEq

/-- `WebhookService.getWebhookStats` (no owner check in the service itself):
the webhook's embedded stats plus the aggregation over its event rows. -/
def getWebhookStats (store : List Webhook) (rows : List WebhookEvent)
    (webhookId : Nat) : Except AdminError StatsView :=
  match findWebhook store webhookId with
  | none => .error (.notFound webhookId)
  | some w =>
      let mine := rows.filter (fun e => e.webhookId == webhookId)
      .ok { name := w.name
            url := w.url
            isActive := w.isActive
            stats := w.stats
            successCount := (mine.filter (fun e => e.status == .success)).length
            failedCount := (mine.filter (fun e => e.status == .failed)).length
            pendingCount := (mine.filter (fun e => e.status == .pending)).length }

/-- The `GET /webhooks/:id/stats` route: ownership is verified by calling
`getWebhookById` before `getWebhookStats`. -/
def getWebhookStatsRoute (store : List Webhook) (rows : List WebhookEvent)
    (webhookId : Nat) (username : String) : Except AdminError StatsView :=
  match getWebhookById store webhookId username with
  | .error e => .error e
  | .ok _ => getWebhookStats store rows webhookId

/-! ## Creation: `POST /webhooks` route + `createWebhook` + schema validation

The route checks JS-truthiness of `url`/`name` and the `http(s)://` prefix
(both → HTTP 400); the service applies JS `||` defaults (so the number `0`
falls back to the default) and builds the document; Mongoose then runs the
schema validators on `save()`.  Mongoose semantics embedded here: `required`
rejects `undefined`/`null` and, for strings, the empty string, but accepts an
empty array; `enum` on an array checks every element; `min`/`max` bound
numbers.  A failed save is wrapped by the service and surfaces as HTTP 500
through the route's catch-all. -/

/-- Request body of `POST /webhooks` (`some` = key present). -/
structure CreateRequestBody where
  url : Option String
  name : Option String
  description : Option String
  events : Option (List String)
  retryCount : Option Nat
  retryBackoffMs : Option Nat
  notifyOnFailure : Option Bool
deriving Repr, DecidableEq

/-- JS truthiness of an optional string (absent and `""` are falsy). -/
def isTruthyStr : Option String → Bool
  | some s => s != ""
  | none => false

/-- JS `value || default` on an optional number (`0` is falsy). -/
def orDefaultNum (v : Option Nat) (d : Nat) : Nat :=
  match v with
  | some n => if n == 0 then d else n
  | none => d

/-- The document `createWebhook` constructs (service defaults via `||`, schema
defaults for the untouched fields, fresh secret from the RNG bytes). -/
def buildWebhook (username : String) (req : CreateRequestBody) (rngBytes : Bytes)
    (newId now : Nat) : Webhook :=
  { id := newId
    username := username
    url := req.url.getD ""
    name := req.name.getD ""
    description := req.description
    events := req.events.getD ["sms.delivered", "sms.failed"]
    isActive := true
    secret := generateSecret rngBytes
    retryEnabled := true
    retryCount := orDefaultNum req.retryCount 3
    retryBackoffMs := orDefaultNum req.retryBackoffMs 5000
    stats := initStats
    notifyOnFailure := req.notifyOnFailure != some false
    maxPayloadSize := 1048576
    created_at := now
    updated_at := now
    lastUpdatedBy := none }

/-- `WebhookService.createWebhook`: build the document and `save()` it; a
schema-validation failure is caught and rethrown as a wrapped error. -/
def createWebhook (username : String) (req : CreateRequestBody) (rngBytes : Bytes)
    (newId now : Nat) : Except String Webhook :=
  let w := buildWebhook username req rngBytes newId now
  if webhookSchemaValid w then .ok w
  else .error "Failed to create webhook: webhooks validation failed"

/-- Result of the `POST /webhooks` route, by HTTP status. -/
inductive CreateRouteResult
  | badRequest (msg : String)
  | created (w : Webhook)
  | serverError (msg : String)
deriving Repr, DecidableEq

/-- The `POST /webhooks` handler: presence check (400), scheme-prefix check
(400), then the service call whose error surfaces as 500. -/
def createWebhookRoute (username : String) (req : CreateRequestBody)
    (rngBytes : Bytes) (newId now : Nat) : CreateRouteResult :=
  if !(isTruthyStr req.url && isTruthyStr req.name) then
    .badRequest "URL and name are required"
  else
    let u := req.url.getD ""
    if !(strStartsWith u "https://" || strStartsWith u "http://") then
      .badRequest "Webhook URL must start with http:// or https://"
    else
      match createWebhook username req rngBytes newId now with
      | .ok w => .created w
      | .error m => .serverError m

/-- Projection used to state creation results: the event mask of a `created`
response, if any. -/
def createdEvents : CreateRouteResult → Option (List String)
  | .created w => some w.events
  | _ => none

/-! ## Receiver-side verification helper: `verifySignature` -/

/-- Node's `crypto.timingSafeEqual` on byte buffers: throws `RangeError` when
the lengths differ, otherwise compares (in constant time; value-wise the
plain equality). -/
def timingSafeEqual (a b : Bytes) : Except String Bool :=
  if a.length == b.length then .ok (a == b)
  else .error "Input buffers must have the same byte length"

/-- `WebhookService.verifySignature`: recompute the expected signature and
compare with `timingSafeEqual`. -/
def verifySignature (payload signature secret : Bytes) : Except String Bool :=
  timingSafeEqual signature (generateSignature payload secret)

/-! ## Dispatcher stats updates as a trace -/

/-- One dispatcher stats update: the success `$inc` or the failure `$inc`. -/
inductive StatsUpdate
  | success (now status dur : Nat)
  | failure (now : Nat)
deriving Repr, DecidableEq

/-- Apply one dispatcher stats update. -/
def applyStatsUpdate (s : WebhookStats) : StatsUpdate → WebhookStats
  | .success now status dur => statsOnSuccess s now status dur
  | .failure now => statsOnFailure s now

/-! ## Concrete fixtures used by witnesses and counterexamples -/

/-- A subscription as created with the scenario defaults
(`retryCount 3`, `retryBackoffMs 5000`). -/
def sampleWebhook : Webhook :=
  { id := 1
    username := "alice"
    url := "http://recv.test/h"
    name := "hook"
    description := none
    events := ["sms.delivered"]
    isActive := true
    secret := bytesOfAscii "sec"
    retryEnabled := true
    retryCount := 3
    retryBackoffMs := 5000
    stats := initStats
    notifyOnFailure := true
    maxPayloadSize := 1048576
    created_at := 0
    updated_at := 0
    lastUpdatedBy := none }

/-- A freshly queued event row for `sampleWebhook` with payload
`\x7b"id":"x1"\x7d`. -/
def sampleEvent : WebhookEvent :=
  mkWebhookEvent sampleWebhook "sms.delivered"
    { logId := none, json := bytesOfAscii "\x7b\"id\":\"x1\"\x7d" } 10 0

/-- A PUT body with no keys present. -/
def emptyPatch : WebhookPatch :=
  ⟨none, none, none, none, none, none, none, none, none, none, none⟩

/-! ## C6 — stats monotonicity and balance -/

/-- One dispatcher stats update keeps `totalCalls = successfulCalls +
failedCalls` and never decreases a counter. -/
theorem applyStatsUpdate_step (s : WebhookStats) (u : StatsUpdate) :
    (s.totalCalls = s.successfulCalls + s.failedCalls →
      (applyStatsUpdate s u).totalCalls
        = (applyStatsUpdate s u).successfulCalls + (applyStatsUpdate s u).failedCalls)
    ∧ s.totalCalls ≤ (applyStatsUpdate s u).totalCalls
    ∧ s.successfulCalls ≤ (applyStatsUpdate s u).successfulCalls
    ∧ s.failedCalls ≤ (applyStatsUpdate s u).failedCalls := by
  cases u <;> simp [applyStatsUpdate, statsOnSuccess, statsOnFailure] <;> omega

/-- Balance is preserved along any trace of dispatcher stats updates. -/
theorem statsTrace_balanced (t : List StatsUpdate) : ∀ s : WebhookStats,
    s.totalCalls = s.successfulCalls + s.failedCalls →
    (t.foldl applyStatsUpdate s).totalCalls
      = (t.foldl applyStatsUpdate s).successfulCalls
        + (t.foldl applyStatsUpdate s).failedCalls := by
  induction t with
  | nil => intro s h; simpa using h
  | cons u rest ih =>
      intro s h
      exact ih (applyStatsUpdate s u) ((applyStatsUpdate_step s u).1 h)

/-- Counters never decrease along any trace of dispatcher stats updates. -/
theorem statsTrace_monotone (t : List StatsUpdate) : ∀ s : WebhookStats,
    s.totalCalls ≤ (t.foldl applyStatsUpdate s).totalCalls
    ∧ s.successfulCalls ≤ (t.foldl applyStatsUpdate s).successfulCalls
    ∧ s.failedCalls ≤ (t.foldl applyStatsUpdate s).failedCalls := by
  induction t with
  | nil => intro s; exact ⟨le_refl _, le_refl _, le_refl _⟩
  | cons u rest ih =>
      intro s
      have hstep := (applyStatsUpdate_step s u).2
      have htail := ih (applyStatsUpdate s u)
      exact ⟨le_trans hstep.1 htail.1, le_trans hstep.2.1 htail.2.1,
             le_trans hstep.2.2 htail.2.2⟩

/-- C6: the stats counters `totalCalls`, `successfulCalls`, `failedCalls` of a
subscription are non-decreasing over time (any later observation dominates any
earlier one along the dispatcher's update trace), and
`successfulCalls + failedCalls = totalCalls` holds at every observable state,
because the success branch increments `totalCalls` with `successfulCalls` and
the failure branch increments `totalCalls` with `failedCalls`. -/
theorem webhook_stats_monotone_balanced (s0 : WebhookStats)
    (t1 t2 : List StatsUpdate)
    (hinv : s0.totalCalls = s0.successfulCalls + s0.failedCalls) :
    ((t1 ++ t2).foldl applyStatsUpdate s0).totalCalls
      = ((t1 ++ t2).foldl applyStatsUpdate s0).successfulCalls
        + ((t1 ++ t2).foldl applyStatsUpdate s0).failedCalls
    ∧ (t1.foldl applyStatsUpdate s0).totalCalls
        ≤ ((t1 ++ t2).foldl applyStatsUpdate s0).totalCalls
    ∧ (t1.foldl applyStatsUpdate s0).successfulCalls
        ≤ ((t1 ++ t2).foldl applyStatsUpdate s0).successfulCalls
    ∧ (t1.foldl applyStatsUpdate s0).failedCalls
        ≤ ((t1 ++ t2).foldl applyStatsUpdate s0).failedCalls := by
  rw [List.foldl_append]
  exact ⟨statsTrace_balanced t2 _ (statsTrace_balanced t1 s0 hinv),
         statsTrace_monotone t2 _⟩

/-- Witness for C6 on a concrete trace: a success then a failure starting from
the schema-default stats. -/
theorem webhook_stats_monotone_balanced_witness :
    (([StatsUpdate.success 1 200 5] ++ [StatsUpdate.failure 2]).foldl
        applyStatsUpdate initStats).totalCalls
      = (([StatsUpdate.success 1 200 5] ++ [StatsUpdate.failure 2]).foldl
          applyStatsUpdate initStats).successfulCalls
        + (([StatsUpdate.success 1 200 5] ++ [StatsUpdate.failure 2]).foldl
            applyStatsUpdate initStats).failedCalls
    ∧ ([StatsUpdate.success 1 200 5].foldl applyStatsUpdate initStats).totalCalls
        ≤ (([StatsUpdate.success 1 200 5] ++ [StatsUpdate.failure 2]).foldl
            applyStatsUpdate initStats).totalCalls :=
  ⟨(webhook_stats_monotone_balanced initStats [.success 1 200 5] [.failure 2]
      (by decide)).1,
   (webhook_stats_monotone_balanced initStats [.success 1 200 5] [.failure 2]
      (by decide)).2.1⟩

/-! ## C10 — `verifySignature` length gate -/

/-- C10: `verifySignature` returns a boolean exactly when the candidate
signature has the 64-byte length of the expected hex HMAC; any other length
makes `crypto.timingSafeEqual` throw instead of returning `false`. -/
theorem verifySignature_length_dichotomy (payload signature secret : Bytes) :
    (signature.length ≠ 64 →
      verifySignature payload signature secret
        = .error "Input buffers must have the same byte length")
    ∧ (signature.length = 64 →
      verifySignature payload signature secret
        = .ok (signature == generateSignature payload secret)) := by
  constructor
  · intro h
    simp [verifySignature, timingSafeEqual, generateSignature_length, h]
  · intro h
    simp [verifySignature, timingSafeEqual, generateSignature_length, h]

/-- Witness for C10: a malformed (empty) signature throws; a 64-byte candidate
returns a boolean. -/
theorem verifySignature_length_dichotomy_witness :
    verifySignature (bytesOfAscii "payload") [] (bytesOfAscii "key")
      = .error "Input buffers must have the same byte length"
    ∧ verifySignature (bytesOfAscii "payload") (List.replicate 64 97) (bytesOfAscii "key")
      = .ok (List.replicate 64 97
              == generateSignature (bytesOfAscii "payload") (bytesOfAscii "key")) :=
  ⟨(verifySignature_length_dichotomy (bytesOfAscii "payload") [] (bytesOfAscii "key")).1
      (by decide),
   (verifySignature_length_dichotomy (bytesOfAscii "payload") (List.replicate 64 97)
      (bytesOfAscii "key")).2 (by decide)⟩

/-! ## C7 — tenant isolation of the admin operations -/

/-- C7: every admin operation (get, update, delete, rotate-secret, test,
events, stats) returns the constant `unauthorized` error (HTTP 403 at the
route layer) whenever the stored owner differs from the caller; the result is
a constant, so no field of the foreign subscription is observable. -/
theorem admin_ops_tenant_isolation (store : List Webhook) (rows : List WebhookEvent)
    (webhookId : Nat) (caller : String) (p : WebhookPatch) (now : Nat)
    (rngBytes : Bytes) (outcome : HttpOutcome) (w : Webhook)
    (hfind : findWebhook store webhookId = some w)
    (howner : w.username ≠ caller) :
    getWebhookById store webhookId caller = .error .unauthorized
    ∧ updateWebhook store webhookId caller p now = .error .unauthorized
    ∧ deleteWebhook store webhookId caller = .error .unauthorized
    ∧ rotateSecret store webhookId caller rngBytes now = .error .unauthorized
    ∧ sendTestWebhook store webhookId caller outcome = .error .unauthorized
    ∧ getWebhookEventsRoute store rows webhookId caller = .error .unauthorized
    ∧ getWebhookStatsRoute store rows webhookId caller = .error .unauthorized := by
  have hbeq : (w.username == caller) = false := by
    simpa using howner
  refine ⟨?_, ?_, ?_, ?_, ?_, ?_, ?_⟩ <;>
    simp [getWebhookById, updateWebhook, deleteWebhook, rotateSecret,
          sendTestWebhook, getWebhookEventsRoute, getWebhookStatsRoute,
          hfind, hbeq]

/-- Witness for C7: the caller `bob` is denied every operation on `alice`'s
subscription. -/
theorem admin_ops_tenant_isolation_witness :
    getWebhookById [sampleWebhook] 1 "bob" = .error .unauthorized
    ∧ updateWebhook [sampleWebhook] 1 "bob" emptyPatch 9 = .error .unauthorized
    ∧ deleteWebhook [sampleWebhook] 1 "bob" = .error .unauthorized
    ∧ rotateSecret [sampleWebhook] 1 "bob" (List.replicate 16 7) 9 = .error .unauthorized
    ∧ sendTestWebhook [sampleWebhook] 1 "bob" (.reply 200 5) = .error .unauthorized
    ∧ getWebhookEventsRoute [sampleWebhook] [] 1 "bob" = .error .unauthorized
    ∧ getWebhookStatsRoute [sampleWebhook] [] 1 "bob" = .error .unauthorized :=
  admin_ops_tenant_isolation [sampleWebhook] [] 1 "bob" emptyPatch 9
    (List.replicate 16 7) (.reply 200 5) sampleWebhook (by rfl) (by decide)

/-! ## C5 — the router persists exactly one pending row per match -/

/-- With all saves succeeding, the router loop produces one row per match,
each `pending` with zero attempts, carrying the emitted type and payload. -/
theorem triggerLoop_all_ok (saveOks : Nat → Bool) (eventType : String)
    (d : EventData) (now : Nat) (h : ∀ i, saveOks i = true) :
    ∀ (i : Nat) (l : List Webhook),
      (triggerLoop saveOks eventType d now i l).length = l.length
      ∧ ∀ e ∈ triggerLoop saveOks eventType d now i l,
          e.status = .pending ∧ e.attempts = 0
          ∧ e.eventType = eventType ∧ e.payload = d.json := by
  intro i l
  induction l generalizing i with
  | nil => simp [triggerLoop]
  | cons w rest ih =>
      have hq : queueWebhookEvent (saveOks i) w eventType d i now
          = some (mkWebhookEvent w eventType d i now) := by
        simp [queueWebhookEvent, h i]
      have htail := ih (i + 1)
      constructor
      · simp [triggerLoop, hq, htail.1]
      · intro e he
        simp only [triggerLoop, hq] at he
        rcases List.mem_cons.mp he with rfl | hmem
        · exact ⟨rfl, rfl, rfl, rfl⟩
        · exact htail.2 e hmem

/-- C5: an emission never propagates an error to the caller (the result is
`.ok` whatever the store does), and when the store operations succeed the call
persists exactly `N` rows — one per active matching subscription — each with
`status = pending` and `attempts = 0`, before returning. -/
theorem triggerEvent_persists_pending_rows (findOk : Bool) (saveOks : Nat → Bool)
    (store : List Webhook) (username eventType : String) (d : EventData) (now : Nat) :
    (∃ l, triggerEvent findOk saveOks store username eventType d now = .ok l)
    ∧ (findOk = true → (∀ i, saveOks i = true) →
        ∃ l, triggerEvent findOk saveOks store username eventType d now = .ok l
          ∧ l.length = (store.filter (matchesTrigger username eventType)).length
          ∧ ∀ e ∈ l, e.status = .pending ∧ e.attempts = 0
              ∧ e.eventType = eventType ∧ e.payload = d.json) := by
  constructor
  · cases findOk <;> simp [triggerEvent]
  · intro hf hs
    subst hf
    refine ⟨triggerLoop saveOks eventType d now 0
              (store.filter (matchesTrigger username eventType)), ?_, ?_, ?_⟩
    · simp [triggerEvent]
    · exact (triggerLoop_all_ok saveOks eventType d now hs 0 _).1
    · exact (triggerLoop_all_ok saveOks eventType d now hs 0 _).2

/-- Witness for C5: a store with one matching and one foreign subscription
yields exactly one pending row. -/
theorem triggerEvent_persists_pending_rows_witness :
    (∃ l, triggerEvent true (fun _ => true)
        [sampleWebhook, { sampleWebhook with id := 2, username := "bob" }]
        "alice" "sms.delivered" { logId := none, json := bytesOfAscii "x" } 0 = .ok l)
    ∧ (∃ l, triggerEvent true (fun _ => true)
        [sampleWebhook, { sampleWebhook with id := 2, username := "bob" }]
        "alice" "sms.delivered" { logId := none, json := bytesOfAscii "x" } 0 = .ok l
        ∧ l.length = ([sampleWebhook, { sampleWebhook with id := 2, username := "bob" }].filter
            (matchesTrigger "alice" "sms.delivered")).length
        ∧ ∀ e ∈ l, e.status = .pending ∧ e.attempts = 0
            ∧ e.eventType = "sms.delivered" ∧ e.payload = bytesOfAscii "x") :=
  ⟨(triggerEvent_persists_pending_rows true (fun _ => true) _ "alice" "sms.delivered" _ 0).1,
   (triggerEvent_persists_pending_rows true (fun _ => true) _ "alice" "sms.delivered" _ 0).2
      rfl (fun _ => rfl)⟩

/-! ## C2 — outcome classification of one attempt -/

/-- The delivery attempt of the claimed terminal-4xx scenario: a subscription
with 5 attempts allowed receives a 404 on the first attempt. -/
def c2Run : OutboundRequest × WebhookEvent × Webhook :=
  sendWebhookEvent { sampleWebhook with retryCount := 5 }
    { sampleEvent with maxAttempts := 5 } "2026-01-01T00:00:00.000Z" (.reply 404 50) 0

/-- Counterexample to C2: a 404 response with attempts remaining does not mark
the row `failed`; the catch block treats it like any failure and schedules a
retry (`pending`, next attempt due), so more than one POST follows. -/
theorem http404_retried_counterexample :
    c2Run.2.1.status ≠ .failed
    ∧ c2Run.2.1.status = .pending
    ∧ c2Run.2.1.attempts = 1
    ∧ c2Run.2.1.nextRetryTime = some 5000 := by
  refine ⟨by decide, by decide, by decide, by decide⟩

/-- C2 as amended: axios resolves only statuses in `[200,300)`, so exactly
those are classified success (row `success`, success stats applied); every
other status — all of `[300,400)` and every 4xx included — takes the uniform
failure path: retried while the bumped attempt count is below `maxAttempts`,
marked `failed` only when the budget is exhausted, with the failure stats
applied either way. -/
theorem sendWebhookEvent_status_classification (w : Webhook) (ev : WebhookEvent)
    (tsIso : String) (status dur now : Nat) :
    ((200 ≤ status ∧ status < 300) →
        (sendWebhookEvent w ev tsIso (.reply status dur) now).2.1.status = .success
      ∧ (sendWebhookEvent w ev tsIso (.reply status dur) now).2.2.stats
          = statsOnSuccess w.stats now status dur)
    ∧ (¬(200 ≤ status ∧ status < 300) →
        (ev.attempts + 1 < ev.maxAttempts →
            (sendWebhookEvent w ev tsIso (.reply status dur) now).2.1.status = .pending)
      ∧ (ev.maxAttempts ≤ ev.attempts + 1 →
            (sendWebhookEvent w ev tsIso (.reply status dur) now).2.1.status = .failed)
      ∧ (sendWebhookEvent w ev tsIso (.reply status dur) now).2.2.stats
          = statsOnFailure w.stats now) := by
  constructor
  · intro h
    have hres : axiosResolves status = true := by
      simp [axiosResolves]
      omega
    constructor <;> simp [sendWebhookEvent, hres]
  · intro h
    have hres : axiosResolves status = false := by
      simp [axiosResolves]
      omega
    refine ⟨?_, ?_, ?_⟩
    · intro hlt
      simp [sendWebhookEvent, hres, sendFailureUpdate, hlt]
    · intro hge
      have : ¬ ev.attempts + 1 < ev.maxAttempts := by omega
      simp [sendWebhookEvent, hres, sendFailureUpdate, this]
    · simp [sendWebhookEvent, hres, sendFailureUpdate]

/-- Witness for the amended C2: a 204 is a success, a 404 on a fresh row with
budget left is retried. -/
theorem sendWebhookEvent_status_classification_witness :
    (sendWebhookEvent sampleWebhook sampleEvent "t" (.reply 204 5) 0).2.1.status = .success
    ∧ (sendWebhookEvent sampleWebhook sampleEvent "t" (.reply 404 5) 0).2.1.status = .pending :=
  ⟨((sendWebhookEvent_status_classification sampleWebhook sampleEvent "t" 204 5 0).1
      (by decide)).1,
   ((sendWebhookEvent_status_classification sampleWebhook sampleEvent "t" 404 5 0).2
      (by decide)).1 (by decide)⟩

/-! ## C3 — retry gating and backoff -/

/-- A subscription with retries disabled and the maximal base backoff. -/
def c3Webhook : Webhook :=
  { sampleWebhook with
    retryEnabled := false
    retryBackoffMs := 3600000
    retryCount := 5 }

/-- A retriable failure on that subscription, two attempts already made,
budget remaining. -/
def c3Run : OutboundRequest × WebhookEvent × Webhook :=
  sendWebhookEvent c3Webhook
    { sampleEvent with attempts := 2, maxAttempts := 5 }
    "2026-01-01T00:00:00.000Z" (.reply 503 5) 0

/-- Counterexample to C3: the dispatcher schedules the retry although
`retryEnabled = false`, and the computed delay `3600000 * 2^2 = 14400000 ms`
(4 hours) is stored without any 1-hour cap. -/
theorem retry_ignores_flag_and_cap_counterexample :
    c3Webhook.retryEnabled = false
    ∧ c3Run.2.1.status = .pending
    ∧ c3Run.2.1.nextRetryTime = some 14400000
    ∧ 3600000 < 14400000 := by
  refine ⟨by decide, by decide, by decide, by decide⟩

/-- C3 as amended: after a retriable failure a retry is scheduled exactly when
the bumped attempt count stays below `maxAttempts` — the `retryEnabled` flag
is never consulted — and the stored delay is exactly
`retryBackoffMs * 2^(attempts made before this attempt)` in exact integer
arithmetic, with no upper cap; on an exhausted budget the row is `failed` and
`nextRetryTime` is left as it was. -/
theorem retry_scheduling_rule (w : Webhook) (ev : WebhookEvent) (tsIso : String)
    (status dur now : Nat) (hfail : ¬(200 ≤ status ∧ status < 300)) :
    (ev.attempts + 1 < ev.maxAttempts →
        (sendWebhookEvent w ev tsIso (.reply status dur) now).2.1.status = .pending
      ∧ (sendWebhookEvent w ev tsIso (.reply status dur) now).2.1.nextRetryTime
          = some (now + w.retryBackoffMs * 2 ^ ev.attempts))
    ∧ (ev.maxAttempts ≤ ev.attempts + 1 →
        (sendWebhookEvent w ev tsIso (.reply status dur) now).2.1.status = .failed
      ∧ (sendWebhookEvent w ev tsIso (.reply status dur) now).2.1.nextRetryTime
          = ev.nextRetryTime) := by
  have hres : axiosResolves status = false := by
    simp [axiosResolves]
    omega
  constructor
  · intro hlt
    constructor <;> simp [sendWebhookEvent, hres, sendFailureUpdate, hlt]
  · intro hge
    have hnlt : ¬ ev.attempts + 1 < ev.maxAttempts := by omega
    constructor <;> simp [sendWebhookEvent, hres, sendFailureUpdate, hnlt]

/-- Witness for the amended C3: first failure of `sampleEvent` is rescheduled
after exactly `5000 * 2^0` milliseconds. -/
theorem retry_scheduling_rule_witness :
    (sendWebhookEvent sampleWebhook sampleEvent "t" (.reply 503 5) 0).2.1.status = .pending
    ∧ (sendWebhookEvent sampleWebhook sampleEvent "t" (.reply 503 5) 0).2.1.nextRetryTime
        = some (0 + 5000 * 2 ^ 0) :=
  (retry_scheduling_rule sampleWebhook sampleEvent "t" 503 5 0 (by decide)).1 (by decide)

/-! ## C4 — the retry-then-succeed scenario S2 -/

/-- The S2 subscription: 1-second base backoff, 3 attempts. -/
def s2Webhook : Webhook := { sampleWebhook with retryBackoffMs := 1000 }

/-- The S2 event row for payload `\x7b"id":"x2"\x7d`. -/
def s2Event : WebhookEvent :=
  mkWebhookEvent s2Webhook "sms.delivered"
    { logId := none, json := bytesOfAscii "\x7b\"id\":\"x2\"\x7d" } 11 0

/-- The S2 run: 503 at t=0, 503 at t=1000 (when due), 200 at t=3000 (when
due). -/
def s2Run : WebhookEvent × Webhook :=
  runDelivery s2Webhook s2Event
    [("t1", .reply 503 5, 0), ("t2", .reply 503 5, 1000), ("t3", .reply 200 5, 3000)]

/-- Counterexample to C4: after 503, 503, 200 the row does not end with
`attempts = 3` and the stats are not `total 1, success 1, failure 0` — the
success branch never increments `attempts`, and the stats are incremented per
HTTP call, not per logical delivery. -/
theorem retry_then_succeed_claim_counterexample :
    s2Run.1.attempts ≠ 3
    ∧ s2Run.2.stats.totalCalls ≠ 1
    ∧ s2Run.2.stats.failedCalls ≠ 0 := by
  refine ⟨by decide, by decide, by decide⟩

/-- C4 as amended: the 503/503/200 chain ends `success`, but with
`attempts = 2` (only the two failures were counted) and stats
`totalCalls 3, successfulCalls 1, failedCalls 2` (one increment per HTTP
call); the two retries were due at t=1000 and t=3000 as claimed. -/
theorem retry_then_succeed_actual :
    s2Run.1.status = .success
    ∧ s2Run.1.attempts = 2
    ∧ s2Run.2.stats.totalCalls = 3
    ∧ s2Run.2.stats.successfulCalls = 1
    ∧ s2Run.2.stats.failedCalls = 2
    ∧ (runDelivery s2Webhook s2Event [("t1", .reply 503 5, 0)]).1.nextRetryTime
        = some 1000
    ∧ (runDelivery s2Webhook s2Event
        [("t1", .reply 503 5, 0), ("t2", .reply 503 5, 1000)]).1.nextRetryTime
        = some 3000 := by
  refine ⟨by decide, by decide, by decide, by decide, by decide, by decide, by decide⟩

/-! ## C9 — the update frame -/

/-- Counterexample to C9: an update by the owner with an empty patch still
changes `lastUpdatedBy` — a field outside the claim's allowed set (and outside
`updated_at`) — from `none` to the caller. -/
theorem update_sets_lastUpdatedBy_counterexample :
    sampleWebhook.lastUpdatedBy = none
    ∧ (updateWebhook [sampleWebhook] 1 "alice" emptyPatch 99).toOption.map
        (fun w => w.lastUpdatedBy) = some (some "alice") := by
  refine ⟨rfl, by decide⟩

/-- C9 as amended: `updateWebhook` applies only the allow-listed patch keys
`url, name, description, events, isActive, retryCount, retryBackoffMs,
notifyOnFailure` (`retryEnabled` is not patchable) and then reruns the schema
validators on `save()`.  When the patched document validates, the update
succeeds: `secret`, `stats`, `username`, `id`, `created_at` and
`retryEnabled` are unchanged whatever the patch contains, `updated_at` is
bumped, and additionally the caller is recorded in `lastUpdatedBy`.  When an
allow-listed key carries a schema-invalid value the save throws and nothing
is persisted. -/
theorem update_frame_conditions (store : List Webhook) (webhookId : Nat)
    (username : String) (p : WebhookPatch) (now : Nat) (w : Webhook)
    (hfind : findWebhook store webhookId = some w)
    (hown : w.username = username) :
    (webhookSchemaValid (applyUpdateDoc w p username now) = true →
      updateWebhook store webhookId username p now
          = .ok (applyUpdateDoc w p username now)
      ∧ (applyUpdateDoc w p username now).secret = w.secret
      ∧ (applyUpdateDoc w p username now).stats = w.stats
      ∧ (applyUpdateDoc w p username now).username = w.username
      ∧ (applyUpdateDoc w p username now).id = w.id
      ∧ (applyUpdateDoc w p username now).created_at = w.created_at
      ∧ (applyUpdateDoc w p username now).retryEnabled = w.retryEnabled
      ∧ (applyUpdateDoc w p username now).updated_at = now
      ∧ (applyUpdateDoc w p username now).lastUpdatedBy = some username
      ∧ (applyUpdateDoc w p username now).url = p.url.getD w.url
      ∧ (applyUpdateDoc w p username now).events = p.events.getD w.events)
    ∧ (webhookSchemaValid (applyUpdateDoc w p username now) = false →
      updateWebhook store webhookId username p now = .error .validationFailed) := by
  have hbeq : (w.username == username) = true := by simp [hown]
  constructor
  · intro hvalid
    refine ⟨by simp [updateWebhook, hfind, hbeq, hvalid], ?_, ?_, ?_, ?_, ?_, ?_, ?_, ?_, ?_, ?_⟩ <;>
      simp [applyUpdateDoc, applyAllowedFields]
  · intro hvalid
    simp [updateWebhook, hfind, hbeq, hvalid]

/-- A PUT body that tries to set the non-patchable `secret`, `stats` and
`retryEnabled`. -/
def evilPatch : WebhookPatch :=
  { emptyPatch with
    secret := some (bytesOfAscii "evil")
    stats := some { initStats with totalCalls := 9 }
    retryEnabled := some false }

/-- Witness for the amended C9: the owner's update with `evilPatch` validates
and leaves `secret`, `stats` and `retryEnabled` unchanged, while a patch with
the allow-listed `url` set to `garbage` fails the schema validators and is
rejected. -/
theorem update_frame_conditions_witness :
    (updateWebhook [sampleWebhook] 1 "alice" evilPatch 7
        = .ok (applyUpdateDoc sampleWebhook evilPatch "alice" 7)
      ∧ (applyUpdateDoc sampleWebhook evilPatch "alice" 7).secret = sampleWebhook.secret
      ∧ (applyUpdateDoc sampleWebhook evilPatch "alice" 7).stats = sampleWebhook.stats
      ∧ (applyUpdateDoc sampleWebhook evilPatch "alice" 7).username = sampleWebhook.username
      ∧ (applyUpdateDoc sampleWebhook evilPatch "alice" 7).id = sampleWebhook.id
      ∧ (applyUpdateDoc sampleWebhook evilPatch "alice" 7).created_at = sampleWebhook.created_at
      ∧ (applyUpdateDoc sampleWebhook evilPatch "alice" 7).retryEnabled = sampleWebhook.retryEnabled
      ∧ (applyUpdateDoc sampleWebhook evilPatch "alice" 7).updated_at = 7
      ∧ (applyUpdateDoc sampleWebhook evilPatch "alice" 7).lastUpdatedBy = some "alice"
      ∧ (applyUpdateDoc sampleWebhook evilPatch "alice" 7).url = sampleWebhook.url
      ∧ (applyUpdateDoc sampleWebhook evilPatch "alice" 7).events = sampleWebhook.events)
    ∧ updateWebhook [sampleWebhook] 1 "alice" { emptyPatch with url := some "garbage" } 7
        = .error .validationFailed :=
  ⟨by
    have h := (update_frame_conditions [sampleWebhook] 1 "alice" evilPatch 7
      sampleWebhook (by rfl) (by rfl)).1 (by decide)
    simpa using h,
   (update_frame_conditions [sampleWebhook] 1 "alice"
      { emptyPatch with url := some "garbage" } 7 sampleWebhook
      (by rfl) (by rfl)).2 (by decide)⟩

/-! ## C8 — creation validation -/

/-- A creation request with a valid URL and name but an empty event mask. -/
def c8Req : CreateRequestBody :=
  { url := some "https://recv.test/h"
    name := some "hook"
    description := none
    events := some []
    retryCount := none
    retryBackoffMs := none
    notifyOnFailure := none }

/-- Counterexample to C8: an explicitly empty event mask is a constraint
violation under the claim, yet creation succeeds with HTTP 201 and an empty
mask — JS `[] || default` keeps the empty array and Mongoose `required`
accepts an empty array. -/
theorem create_accepts_empty_event_mask_counterexample :
    createdEvents (createWebhookRoute "alice" c8Req (List.replicate 16 7) 1 0)
      = some [] := by
  decide

/-- C8 as amended: the route rejects a missing/empty `url` or `name` and a URL
without an `http://`/`https://` prefix with HTTP 400; past those checks the
service builds the document (`0` falls back to the defaults through JS `||`)
and Mongoose enforces element membership of `events` in the defined set
(empty masks pass), `retryCount ∈ [1,10]` and `retryBackoffMs ∈
[1000,3600000]` — but a schema violation surfaces as HTTP 500, not 400 and
not a `ValidationError` of the route contract; the secret is the hex of 16
bytes drawn from the cryptographic RNG. -/
theorem create_validation_behavior (username : String) (req : CreateRequestBody)
    (rngBytes : Bytes) (newId now : Nat) :
    ((isTruthyStr req.url && isTruthyStr req.name) = false →
        createWebhookRoute username req rngBytes newId now
          = .badRequest "URL and name are required")
    ∧ ((isTruthyStr req.url && isTruthyStr req.name) = true →
        (strStartsWith (req.url.getD "") "https://"
          || strStartsWith (req.url.getD "") "http://") = false →
        createWebhookRoute username req rngBytes newId now
          = .badRequest "Webhook URL must start with http:// or https://")
    ∧ ((isTruthyStr req.url && isTruthyStr req.name) = true →
        (strStartsWith (req.url.getD "") "https://"
          || strStartsWith (req.url.getD "") "http://") = true →
        (webhookSchemaValid (buildWebhook username req rngBytes newId now) = true →
            createWebhookRoute username req rngBytes newId now
              = .created (buildWebhook username req rngBytes newId now))
        ∧ (webhookSchemaValid (buildWebhook username req rngBytes newId now) = false →
            createWebhookRoute username req rngBytes newId now
              = .serverError "Failed to create webhook: webhooks validation failed"))
    ∧ (buildWebhook username req rngBytes newId now).secret
        = generateSecret rngBytes := by
  refine ⟨?_, ?_, ?_, rfl⟩
  · intro h
    simp [createWebhookRoute, h]
  · intro h hpre
    simp [createWebhookRoute, h, hpre]
  · intro h hpre
    constructor
    · intro hvalid
      simp [createWebhookRoute, h, hpre, createWebhook, hvalid]
    · intro hvalid
      simp [createWebhookRoute, h, hpre, createWebhook, hvalid]

/-- Witness for the amended C8: a missing URL is a 400; an out-of-range
`retryCount = 11` on an otherwise valid request is a 500. -/
theorem create_validation_behavior_witness :
    createWebhookRoute "alice"
      { c8Req with url := none } (List.replicate 16 7) 1 0
      = .badRequest "URL and name are required"
    ∧ createWebhookRoute "alice"
      { c8Req with events := none, retryCount := some 11 } (List.replicate 16 7) 1 0
      = .serverError "Failed to create webhook: webhooks validation failed" :=
  ⟨(create_validation_behavior "alice" { c8Req with url := none }
      (List.replicate 16 7) 1 0).1 (by decide),
   ((create_validation_behavior "alice" { c8Req with events := none, retryCount := some 11 }
      (List.replicate 16 7) 1 0).2.2.1 (by decide) (by decide)).2 (by decide)⟩

/-! ## C1 — what the signature commits to -/

/-- The request issued for `sampleEvent` at the fixed send time. -/
def c1Request : OutboundRequest :=
  (sendWebhookEvent sampleWebhook sampleEvent "2026-01-01T00:00:00.000Z" (.reply 200 5) 0).1

set_option maxRecDepth 8000 in
/-- C1 evaluated at a concrete delivery: the dispatcher signs the envelope
`\x7b event, timestamp, data \x7d` but POSTs only the inner payload object as
the body, so the `X-Webhook-Signature` header is not the HMAC of the request
body bytes — the round-trip equation of the claim fails on every real
delivery (while the repository's own receiver recipe and its test probe both
hash the exact body). -/
theorem signature_not_over_sent_body :
    c1Request.body = sampleEvent.payload
    ∧ c1Request.signatureHeader
        = generateSignature (signedPayload sampleEvent "2026-01-01T00:00:00.000Z")
            sampleWebhook.secret
    ∧ c1Request.signatureHeader
        ≠ generateSignature c1Request.body sampleWebhook.secret := by
  refine ⟨rfl, rfl, by decide⟩

end SmsWebhook
